import Mathlib

/-!
Shallow embedding of kernel/power/suspend.c (suspend-to-RAM orchestration).

External collaborators (notifier chain, process freezer, device PM framework,
syscore, cpu hotplug, wakeup check, the freeze wake signal, the platform
suspend_ops table) are modelled as an environment of oracles; each modelled
function threads an explicit state (lock, freeze-wake flag, statistics) and
returns, besides its C return value, the ordered list of collaborator events
it performed.  A result of Option.none models a call that never returns
(blocking forever in freeze_enter, or an unbounded suspend_again retry loop,
the latter via an explicit fuel bound in the environment).
-/

namespace Suspend

/-- suspend_state_t values, from include/linux/suspend.h. -/
def PM_SUSPEND_ON : Int := 0

def PM_SUSPEND_FREEZE : Int := 1

def PM_SUSPEND_STANDBY : Int := 2

def PM_SUSPEND_MEM : Int := 3

def PM_SUSPEND_MAX : Int := 4

def EPERM : Int := 1

def EBUSY : Int := 16

def ENODEV : Int := 19

def EINVAL : Int := 22

def ENOSYS : Int := 38

/-- pm_test levels from kernel/power/power.h (CONFIG_PM_DEBUG). -/
inductive TestLevel
  | TEST_NONE
  | TEST_CORE
  | TEST_CPUS
  | TEST_PLATFORM
  | TEST_DEVICES
  | TEST_FREEZER
deriving DecidableEq, Repr

open TestLevel

/-- One observable collaborator call made by the suspend core. -/
inductive Event
  | prepareConsole
  | notifierPrepare
  | notifierPost
  | freezeProcesses
  | thawProcesses
  | restoreConsole
  | saveFailedStep
  | saveFailedErrno
  | beginCb
  | suspendConsole
  | ftraceStop
  | dpmSuspendStart
  | dpmSuspendEnd
  | prepareCb
  | prepareLateCb
  | freezeEnterEv
  | disableNonboot
  | enableNonboot
  | archDisableIrqs
  | archEnableIrqs
  | syscoreSuspendEv
  | syscoreResumeEv
  | wakeupCheck
  | enterCb
  | wakeCb
  | dpmResumeStart
  | dpmResumeEnd
  | ftraceStart
  | resumeConsole
  | recoverCb
  | endCb
  | finishCb
  | lockAcquire
  | lockRelease
  | freezeBeginEv
  | syncFS
  | asusOtgOff
  | suspendEnterCall
  | statsSuccess
  | statsFail
deriving DecidableEq, Repr

/-- struct platform_suspend_ops: the capability table of optional callbacks.
Int-returning callbacks yield their C return value (0 = success).  Callbacks
invoked once per retry-loop iteration take the iteration index.  Callbacks
with no return value are modelled by a presence flag. -/
structure PlatformSuspendOps where
  valid : Option (Int → Bool)
  begin_ : Option (Int → Int)
  prepare : Option (Nat → Int)
  prepare_late : Option (Nat → Int)
  enter : Option (Int → Nat → Int)
  wake : Bool
  finish : Bool
  end_ : Bool
  recover : Bool
  suspend_again : Option (Nat → Bool)

/-- The environment of external collaborators for one pm_suspend call:
outcomes of each fallible external call (indexed by retry-loop iteration
where the call sits inside the loop), the registered suspend_ops table,
the pm_test checkpoint level, whether freeze_wake is signalled after the
freeze_begin reset, and a fuel bound for the unbounded suspend_again loop. -/
structure Env where
  pm_test_level : TestLevel
  suspend_ops : Option PlatformSuspendOps
  notifier_prepare : Int
  freeze_processes : Int
  dpm_suspend_start : Int
  dpm_suspend_end : Nat → Int
  disable_nonboot : Nat → Int
  syscore : Nat → Int
  wakeup_pending : Nat → Bool
  freeze_wake_arrives : Bool
  fuel : Nat

/-- The persistent state touched by suspend.c: the pm_mutex, the
suspend_freeze_wake flag, and suspend_stats counters. -/
structure St where
  lockHeld : Bool
  suspend_freeze_wake : Bool
  success : Nat
  fail : Nat
  failed_freeze : Nat
deriving DecidableEq, Repr

/-- An ops table with no capabilities, standing for a NULL suspend_ops. -/
def defaultOps : PlatformSuspendOps :=
  { valid := none, begin_ := none, prepare := none, prepare_late := none,
    enter := none, wake := false, finish := false, end_ := false,
    recover := false, suspend_again := none }

def opsOf (env : Env) : PlatformSuspendOps :=
  env.suspend_ops.getD defaultOps

/-- need_suspend_ops: states above PM_SUSPEND_FREEZE need a platform driver. -/
def need_suspend_ops (state : Int) : Bool :=
  decide (PM_SUSPEND_FREEZE < state)

/-- suspend_test: true iff the configured pm_test checkpoint equals level. -/
def suspend_test (env : Env) (level : TestLevel) : Bool :=
  env.pm_test_level == level

/-- valid_state from suspend.c (CONFIG_PM_DEBUG enabled): freeze is valid
unless pm_test_level is one of the unsupported modes (core, cpus); other
states defer to the registered driver's valid callback. -/
def valid_state (env : Env) (state : Int) : Bool :=
  if state = PM_SUSPEND_FREEZE then
    !(env.pm_test_level == TEST_CORE || env.pm_test_level == TEST_CPUS)
  else
    match env.suspend_ops with
    | none => false
    | some o =>
      match o.valid with
      | none => false
      | some v => v state

/-- freeze_begin: clear the freeze wake flag. -/
def freeze_begin (st : St) : St :=
  { st with suspend_freeze_wake := false }

/-- freeze_enter: wait_event on suspend_freeze_wake.  Returns iff the flag
is already set or the external freeze_wake signal arrives; otherwise the
call blocks forever (modelled as none). -/
def freeze_enter (env : Env) (st : St) : Option Unit × St × List Event :=
  if st.suspend_freeze_wake || env.freeze_wake_arrives then
    (some (), { st with suspend_freeze_wake := true }, [Event.freezeEnterEv])
  else
    (none, st, [Event.freezeEnterEv])

/-- suspend_prepare: console allocation, PM_SUSPEND_PREPARE notifier,
process freezing, with the internal Finish unwind (post-suspend notifier,
console restore) on failure. -/
def suspend_prepare (env : Env) (state : Int) (st : St) : Int × St × List Event :=
  if need_suspend_ops state = true ∧
      (env.suspend_ops.isNone = true ∨ (opsOf env).enter.isNone = true) then
    (-EPERM, st, [])
  else
    let evs0 := [Event.prepareConsole, Event.notifierPrepare]
    if env.notifier_prepare ≠ 0 then
      (env.notifier_prepare, st, evs0 ++ [Event.notifierPost, Event.restoreConsole])
    else
      let evs1 := evs0 ++ [Event.freezeProcesses]
      if env.freeze_processes = 0 then
        (0, st, evs1)
      else
        (env.freeze_processes,
          { st with failed_freeze := st.failed_freeze + 1 },
          evs1 ++ [Event.saveFailedStep, Event.notifierPost, Event.restoreConsole])

/-- Events of the Platform_finish tail of suspend_enter. -/
def sEnterFinishEvs (env : Env) (state : Int) : List Event :=
  if need_suspend_ops state = true ∧ (opsOf env).finish = true then
    [Event.finishCb]
  else
    []

/-- Events of the Platform_wake tail of suspend_enter (wake callback,
dpm_resume_start, then the Platform_finish tail). -/
def sEnterWakeEvs (env : Env) (state : Int) : List Event :=
  (if need_suspend_ops state = true ∧ (opsOf env).wake = true then
    [Event.wakeCb]
  else
    []) ++ [Event.dpmResumeStart] ++ sEnterFinishEvs env state

/-- suspend_enter after dpm_suspend_end and prepare_late succeeded: the
TEST_PLATFORM checkpoint, the freeze wait, or the cpu/irq/syscore/enter
core with its symmetric unwind. -/
def suspend_enter_inner (env : Env) (state : Int) (k : Nat) (wakeup : Bool)
    (st : St) (acc : List Event) : Option Int × Bool × St × List Event :=
  if suspend_test env TEST_PLATFORM = true then
    (some 0, wakeup, st, acc ++ sEnterWakeEvs env state)
  else if state = PM_SUSPEND_FREEZE then
    match freeze_enter env st with
    | (some _, st1, fevs) => (some 0, wakeup, st1, acc ++ fevs ++ sEnterWakeEvs env state)
    | (none, st1, fevs) => (none, wakeup, st1, acc ++ fevs)
  else
    let e3 := env.disable_nonboot k
    let acc1 := acc ++ [Event.disableNonboot]
    if e3 ≠ 0 ∨ suspend_test env TEST_CPUS = true then
      (some e3, wakeup, st, acc1 ++ [Event.enableNonboot] ++ sEnterWakeEvs env state)
    else
      let acc2 := acc1 ++ [Event.archDisableIrqs, Event.syscoreSuspendEv]
      let e4 := env.syscore k
      if e4 = 0 then
        let wk := env.wakeup_pending k
        let acc3 := acc2 ++ [Event.wakeupCheck]
        if suspend_test env TEST_CORE = true ∨ wk = true then
          (some 0, wk, st,
            acc3 ++ [Event.syscoreResumeEv, Event.archEnableIrqs, Event.enableNonboot]
              ++ sEnterWakeEvs env state)
        else
          let e5 := match (opsOf env).enter with
            | some f => f state k
            | none => 0
          (some e5, wk, st,
            acc3 ++ [Event.enterCb, Event.syscoreResumeEv, Event.archEnableIrqs,
              Event.enableNonboot] ++ sEnterWakeEvs env state)
      else
        (some e4, wakeup, st,
          acc2 ++ [Event.archEnableIrqs, Event.enableNonboot] ++ sEnterWakeEvs env state)

/-- suspend_enter after the platform prepare callback succeeded:
dpm_suspend_end, then the prepare_late callback, then the inner core. -/
def suspend_enter_core (env : Env) (state : Int) (k : Nat) (wakeup : Bool)
    (st : St) (acc : List Event) : Option Int × Bool × St × List Event :=
  let e1 := env.dpm_suspend_end k
  let acc1 := acc ++ [Event.dpmSuspendEnd]
  if e1 ≠ 0 then
    (some e1, wakeup, st, acc1 ++ sEnterFinishEvs env state)
  else
    match (if need_suspend_ops state = true then (opsOf env).prepare_late else none) with
    | some f =>
      let e2 := f k
      let acc2 := acc1 ++ [Event.prepareLateCb]
      if e2 ≠ 0 then
        (some e2, wakeup, st, acc2 ++ sEnterWakeEvs env state)
      else
        suspend_enter_inner env state k wakeup st acc2
    | none => suspend_enter_inner env state k wakeup st acc1

/-- suspend_enter: one low-level entry attempt (iteration k of the retry
loop); returns (error or blocked, wakeup flag, state, events). -/
def suspend_enter (env : Env) (state : Int) (k : Nat) (wakeup : Bool)
    (st : St) : Option Int × Bool × St × List Event :=
  match (if need_suspend_ops state = true then (opsOf env).prepare else none) with
  | some f =>
    let e := f k
    if e ≠ 0 then
      (some e, wakeup, st,
        [Event.suspendEnterCall, Event.prepareCb] ++ sEnterFinishEvs env state)
    else
      suspend_enter_core env state k wakeup st [Event.suspendEnterCall, Event.prepareCb]
  | none => suspend_enter_core env state k wakeup st [Event.suspendEnterCall]

/-- The suspend_again capability evaluated at its n-th invocation. -/
def sa_call (env : Env) (n : Nat) : Bool :=
  match (opsOf env).suspend_again with
  | some f => f n
  | none => false

/-- The do/while retry loop of suspend_devices_and_enter: re-invoke
suspend_enter while it returned 0, no wakeup is pending, the state needs a
driver, and the driver's suspend_again callback exists and returns true.
Fuel models the unbounded iteration count; exhausting it models the call
never returning. -/
def suspend_enter_loop (env : Env) (state : Int) :
    Nat → Nat → Bool → St → Option Int × Bool × St × List Event
  | 0, _, wakeup, st => (none, wakeup, st, [])
  | fuel + 1, k, wakeup, st =>
    match suspend_enter env state k wakeup st with
    | (none, wk, st1, evs) => (none, wk, st1, evs)
    | (some e, wk, st1, evs) =>
      if e = 0 ∧ wk = false ∧ need_suspend_ops state = true ∧ sa_call env k = true then
        match suspend_enter_loop env state fuel (k + 1) wk st1 with
        | (r2, wk2, st2, evs2) => (r2, wk2, st2, evs ++ evs2)
      else
        (some e, wk, st1, evs)

/-- Events of the begin callback, when invoked. -/
def sdaeBeginEvs (env : Env) (state : Int) : List Event :=
  if need_suspend_ops state = true ∧ (opsOf env).begin_.isSome = true then
    [Event.beginCb]
  else
    []

/-- Events of the end callback at the Close label, when present. -/
def sdaeEndEvs (env : Env) (state : Int) : List Event :=
  if need_suspend_ops state = true ∧ (opsOf env).end_ = true then
    [Event.endCb]
  else
    []

/-- Events of the recover callback at the Recover_platform label. -/
def sdaeRecoverEvs (env : Env) (state : Int) : List Event :=
  if need_suspend_ops state = true ∧ (opsOf env).recover = true then
    [Event.recoverCb]
  else
    []

/-- Events of the Resume_devices tail: dpm_resume_end, ftrace_start,
resume_console. -/
def sdaeResumeEvs : List Event :=
  [Event.dpmResumeEnd, Event.ftraceStart, Event.resumeConsole]

/-- suspend_devices_and_enter after the begin callback succeeded: console
and trace quiesce, dpm_suspend_start, the TEST_DEVICES checkpoint, the
retry loop, and the Resume_devices / Recover_platform / Close unwinding. -/
def sdae_devices (env : Env) (state : Int) (st : St) (acc : List Event) :
    Option Int × St × List Event :=
  let acc1 := acc ++ [Event.suspendConsole, Event.ftraceStop, Event.dpmSuspendStart]
  if env.dpm_suspend_start ≠ 0 then
    (some env.dpm_suspend_start, st,
      acc1 ++ sdaeRecoverEvs env state ++ sdaeResumeEvs ++ sdaeEndEvs env state)
  else if suspend_test env TEST_DEVICES = true then
    (some 0, st,
      acc1 ++ sdaeRecoverEvs env state ++ sdaeResumeEvs ++ sdaeEndEvs env state)
  else
    match suspend_enter_loop env state env.fuel 0 false st with
    | (none, _, st1, levs) => (none, st1, acc1 ++ levs)
    | (some e, _, st1, levs) =>
      (some e, st1, acc1 ++ levs ++ sdaeResumeEvs ++ sdaeEndEvs env state)

/-- suspend_devices_and_enter: the Device & Platform phase controller. -/
def suspend_devices_and_enter (env : Env) (state : Int) (st : St) :
    Option Int × St × List Event :=
  if need_suspend_ops state = true ∧ env.suspend_ops.isNone = true then
    (some (-ENOSYS), st, [])
  else
    match (if need_suspend_ops state = true then (opsOf env).begin_ else none) with
    | some f =>
      if f state ≠ 0 then
        (some (f state), st, [Event.beginCb] ++ sdaeEndEvs env state)
      else
        sdae_devices env state st [Event.beginCb]
    | none => sdae_devices env state st []

/-- Events of suspend_finish: thaw processes, post-suspend notifier,
console restore. -/
def suspend_finish_evs : List Event :=
  [Event.thawProcesses, Event.notifierPost, Event.restoreConsole]

/-- The body of enter_state after pm_mutex has been acquired (and, for the
freeze state, freeze_begin has run): sync filesystems, Prepare phase,
TEST_FREEZER checkpoint, Device & Platform phase, Finish phase, unlock.
A Prepare failure jumps straight to Unlock, skipping suspend_finish.
st2 is the state after lock acquisition and evs0 the events already
performed (lock acquisition, optional freeze_begin, filesystem sync). -/
def enter_state_locked (env : Env) (state : Int) (st2 : St)
    (evs0 : List Event) : Option Int × St × List Event :=
  match suspend_prepare env state st2 with
  | (perr, st3, pevs) =>
    if perr ≠ 0 then
      (some perr, { st3 with lockHeld := false }, evs0 ++ pevs ++ [Event.lockRelease])
    else if suspend_test env TEST_FREEZER = true then
      (some 0, { st3 with lockHeld := false },
        evs0 ++ pevs ++ suspend_finish_evs ++ [Event.lockRelease])
    else
      match suspend_devices_and_enter env state st3 with
      | (none, st4, devs) => (none, st4, evs0 ++ pevs ++ devs)
      | (some e, st4, devs) =>
        (some e, { st4 with lockHeld := false },
          evs0 ++ pevs ++ devs ++ suspend_finish_evs ++ [Event.lockRelease])

/-- enter_state: validate, try-acquire pm_mutex, freeze_begin for the
freeze state, then the locked body. -/
def enter_state (env : Env) (state : Int) (st : St) :
    Option Int × St × List Event :=
  if valid_state env state = false then
    (some (-ENODEV), st, [])
  else if st.lockHeld = true then
    (some (-EBUSY), st, [])
  else
    let st1 : St := { st with lockHeld := true }
    if state = PM_SUSPEND_FREEZE then
      enter_state_locked env state (freeze_begin st1)
        [Event.lockAcquire, Event.freezeBeginEv, Event.syncFS]
    else
      enter_state_locked env state st1 [Event.lockAcquire, Event.syncFS]

/-- pm_suspend: range-check the state, run enter_state, then update
suspend_stats with exactly one of success or fail. -/
def pm_suspend (env : Env) (state : Int) (st : St) :
    Option Int × St × List Event :=
  if state ≤ PM_SUSPEND_ON ∨ PM_SUSPEND_MAX ≤ state then
    (some (-EINVAL), st, [])
  else
    match enter_state env state st with
    | (none, st1, evs) => (none, st1, [Event.asusOtgOff] ++ evs)
    | (some e, st1, evs) =>
      if e ≠ 0 then
        (some e, { st1 with fail := st1.fail + 1 },
          [Event.asusOtgOff] ++ evs ++ [Event.saveFailedErrno, Event.statsFail])
      else
        (some e, { st1 with success := st1.success + 1 },
          [Event.asusOtgOff] ++ evs ++ [Event.statsSuccess])

/-- A fully-populated driver table whose callbacks all succeed and whose
suspend_again callback returns true on its first two invocations and false
afterwards (the mock driver of the retry-loop scenario). -/
def opsFull : PlatformSuspendOps :=
  { valid := some (fun _ => true), begin_ := some (fun _ => 0),
    prepare := some (fun _ => 0), prepare_late := some (fun _ => 0),
    enter := some (fun _ _ => 0), wake := true, finish := true, end_ := true,
    recover := true, suspend_again := some (fun n => decide (n < 2)) }

/-- An environment in which every collaborator succeeds, no checkpoint is
configured, no wakeup is pending, and the freeze wake signal arrives. -/
def envOk : Env :=
  { pm_test_level := TEST_NONE, suspend_ops := some opsFull,
    notifier_prepare := 0, freeze_processes := 0, dpm_suspend_start := 0,
    dpm_suspend_end := fun _ => 0, disable_nonboot := fun _ => 0,
    syscore := fun _ => 0, wakeup_pending := fun _ => false,
    freeze_wake_arrives := true, fuel := 10 }

/-- Initial state: lock free, flag clear, zeroed statistics. -/
def st0 : St :=
  { lockHeld := false, suspend_freeze_wake := false, success := 0, fail := 0,
    failed_freeze := 0 }

/-- A state in which a concurrent suspend attempt holds pm_mutex. -/
def stLocked : St :=
  { st0 with lockHeld := true }

/-- envOk with a failing PM_SUSPEND_PREPARE notifier chain. -/
def envPrepFail : Env :=
  { envOk with notifier_prepare := -5 }

/-- envOk with no registered suspend_ops table. -/
def envNoOps : Env :=
  { envOk with suspend_ops := none }

/-- envOk with the pm_test checkpoint set at the device-suspend level. -/
def envTestDevices : Env :=
  { envOk with pm_test_level := TEST_DEVICES }

/-- opsFull without the optional prepare / prepare_late callbacks. -/
def opsWake : PlatformSuspendOps :=
  { opsFull with prepare := none, prepare_late := none }

/-- An environment in which a wakeup source is pending at every check. -/
def envWake : Env :=
  { envOk with suspend_ops := some opsWake, wakeup_pending := fun _ => true }

/-- envOk with a failing device-suspend step (dpm_suspend_start). -/
def envDpmFail : Env :=
  { envOk with dpm_suspend_start := -19 }

/-- envOk with a freeze wake signal that never arrives: a freeze attempt
blocks forever in freeze_enter. -/
def envNoSig : Env :=
  { envOk with freeze_wake_arrives := false }

/-- The four low-level steps the freeze variant must never perform. -/
def lowLevelEvs : List Event :=
  [Event.disableNonboot, Event.archDisableIrqs, Event.syscoreSuspendEv,
    Event.enterCb]

section Lemmas

lemma need_suspend_ops_freeze : need_suspend_ops PM_SUSPEND_FREEZE = false := by
  decide

lemma suspend_prepare_fst_const (env : Env) (state : Int) (st st' : St) :
    (suspend_prepare env state st).1 = (suspend_prepare env state st').1 := by
  unfold suspend_prepare
  split_ifs <;> rfl

lemma suspend_prepare_stats (env : Env) (state : Int) (st : St) :
    (suspend_prepare env state st).2.1.success = st.success ∧
      (suspend_prepare env state st).2.1.fail = st.fail ∧
      (suspend_prepare env state st).2.1.lockHeld = st.lockHeld := by
  unfold suspend_prepare
  split_ifs <;> simp

lemma suspend_prepare_evs_mem (env : Env) (state : Int) (st : St) :
    ∀ e ∈ (suspend_prepare env state st).2.2,
      e ∈ [Event.prepareConsole, Event.notifierPrepare, Event.freezeProcesses,
        Event.saveFailedStep, Event.notifierPost, Event.restoreConsole] := by
  unfold suspend_prepare
  split_ifs <;> intro e he <;> simp_all <;> tauto

end Lemmas

/-- Every event suspend_enter can emit besides its own invocation marker. -/
def seTailVocab : List Event :=
  [Event.prepareCb, Event.dpmSuspendEnd, Event.prepareLateCb,
    Event.freezeEnterEv, Event.disableNonboot, Event.enableNonboot,
    Event.archDisableIrqs, Event.archEnableIrqs, Event.syscoreSuspendEv,
    Event.syscoreResumeEv, Event.wakeupCheck, Event.enterCb, Event.wakeCb,
    Event.dpmResumeStart, Event.finishCb]

section Lemmas2

lemma freeze_enter_evs (env : Env) (st : St) :
    (freeze_enter env st).2.2 = [Event.freezeEnterEv] := by
  unfold freeze_enter
  split <;> rfl

lemma freeze_enter_st (env : Env) (st : St) :
    (freeze_enter env st).2.1.success = st.success ∧
      (freeze_enter env st).2.1.fail = st.fail ∧
      (freeze_enter env st).2.1.lockHeld = st.lockHeld ∧
      (freeze_enter env st).2.1.failed_freeze = st.failed_freeze := by
  unfold freeze_enter
  split <;> simp

lemma sEnterWakeEvs_vocab (env : Env) (state : Int) :
    ∀ e ∈ sEnterWakeEvs env state, e ∈ seTailVocab := by
  intro e he
  have hsub : e ∈ [Event.wakeCb, Event.dpmResumeStart, Event.finishCb] := by
    unfold sEnterWakeEvs sEnterFinishEvs at he
    split_ifs at he <;> simp_all <;> tauto
  fin_cases hsub <;> decide

lemma sEnterFinishEvs_vocab (env : Env) (state : Int) :
    ∀ e ∈ sEnterFinishEvs env state, e ∈ seTailVocab := by
  intro e he
  have hsub : e ∈ [Event.finishCb] := by
    unfold sEnterFinishEvs at he
    split_ifs at he <;> simp_all
  fin_cases hsub
  decide

lemma mem_concat_vocab {a b : List Event}
    (h1 : ∀ e ∈ a, e ∈ seTailVocab) (h2 : ∀ e ∈ b, e ∈ seTailVocab) :
    ∀ e ∈ a ++ b, e ∈ seTailVocab := by
  intro e he
  rcases List.mem_append.mp he with h | h
  exacts [h1 e h, h2 e h]

lemma mem_cons_vocab {a : Event} {b : List Event}
    (h1 : a ∈ seTailVocab) (h2 : ∀ e ∈ b, e ∈ seTailVocab) :
    ∀ e ∈ a :: b, e ∈ seTailVocab := by
  intro e he
  rcases List.mem_cons.mp he with h | h
  · exact h ▸ h1
  · exact h2 e h

lemma suspend_enter_inner_shape (env : Env) (state : Int) (k : Nat) (w : Bool)
    (st : St) (acc : List Event) :
    ∃ t, (suspend_enter_inner env state k w st acc).2.2.2 = acc ++ t ∧
      ∀ e ∈ t, e ∈ seTailVocab := by
  have hW := sEnterWakeEvs_vocab env state
  simp only [suspend_enter_inner]
  by_cases h1 : suspend_test env TEST_PLATFORM = true
  · rw [if_pos h1]
    exact ⟨sEnterWakeEvs env state, rfl, hW⟩
  · rw [if_neg h1]
    by_cases h2 : state = PM_SUSPEND_FREEZE
    · rw [if_pos h2]
      rcases hf : freeze_enter env st with ⟨fo, st1, fevs⟩
      have hfe : fevs = [Event.freezeEnterEv] := by
        have h3 := freeze_enter_evs env st
        rw [hf] at h3
        exact h3
      subst hfe
      cases fo
      · exact ⟨[Event.freezeEnterEv], rfl, by decide⟩
      · exact ⟨[Event.freezeEnterEv] ++ sEnterWakeEvs env state, by simp,
          mem_concat_vocab (by decide) hW⟩
    · rw [if_neg h2]
      by_cases h3 : ¬env.disable_nonboot k = 0 ∨ suspend_test env TEST_CPUS = true
      · rw [if_pos h3]
        exact ⟨[Event.disableNonboot, Event.enableNonboot] ++ sEnterWakeEvs env state,
          by simp, mem_concat_vocab (by decide) hW⟩
      · rw [if_neg h3]
        by_cases h4 : env.syscore k = 0
        · rw [if_pos h4]
          by_cases h5 : suspend_test env TEST_CORE = true ∨ env.wakeup_pending k = true
          · rw [if_pos h5]
            exact ⟨[Event.disableNonboot, Event.archDisableIrqs,
              Event.syscoreSuspendEv, Event.wakeupCheck, Event.syscoreResumeEv,
              Event.archEnableIrqs, Event.enableNonboot] ++ sEnterWakeEvs env state,
              by simp, mem_concat_vocab (by decide) hW⟩
          · rw [if_neg h5]
            exact ⟨[Event.disableNonboot, Event.archDisableIrqs,
              Event.syscoreSuspendEv, Event.wakeupCheck, Event.enterCb,
              Event.syscoreResumeEv, Event.archEnableIrqs, Event.enableNonboot]
                ++ sEnterWakeEvs env state,
              by simp, mem_concat_vocab (by decide) hW⟩
        · rw [if_neg h4]
          exact ⟨[Event.disableNonboot, Event.archDisableIrqs,
            Event.syscoreSuspendEv, Event.archEnableIrqs, Event.enableNonboot]
              ++ sEnterWakeEvs env state,
            by simp, mem_concat_vocab (by decide) hW⟩

lemma suspend_enter_inner_st (env : Env) (state : Int) (k : Nat) (w : Bool)
    (st : St) (acc : List Event) :
    (suspend_enter_inner env state k w st acc).2.2.1.success = st.success ∧
      (suspend_enter_inner env state k w st acc).2.2.1.fail = st.fail ∧
      (suspend_enter_inner env state k w st acc).2.2.1.lockHeld = st.lockHeld ∧
      (suspend_enter_inner env state k w st acc).2.2.1.failed_freeze
        = st.failed_freeze := by
  simp only [suspend_enter_inner]
  rcases hf : freeze_enter env st with ⟨fo, st1, fevs⟩
  have hst := freeze_enter_st env st
  rw [hf] at hst
  cases fo <;> split_ifs <;> simp_all

lemma suspend_enter_core_shape (env : Env) (state : Int) (k : Nat) (w : Bool)
    (st : St) (acc : List Event) :
    ∃ t, (suspend_enter_core env state k w st acc).2.2.2 = acc ++ t ∧
      ∀ e ∈ t, e ∈ seTailVocab := by
  have hF := sEnterFinishEvs_vocab env state
  have hW := sEnterWakeEvs_vocab env state
  obtain ⟨t1, ht1, hv1⟩ :=
    suspend_enter_inner_shape env state k w st (acc ++ [Event.dpmSuspendEnd])
  obtain ⟨t2, ht2, hv2⟩ := suspend_enter_inner_shape env state k w st
    (acc ++ [Event.dpmSuspendEnd] ++ [Event.prepareLateCb])
  simp only [suspend_enter_core]
  by_cases h1 : env.dpm_suspend_end k ≠ 0
  · rw [if_pos h1]
    exact ⟨[Event.dpmSuspendEnd] ++ sEnterFinishEvs env state, by simp,
      mem_concat_vocab (by decide) hF⟩
  · rw [if_neg h1]
    split
    · split_ifs with h2
      · exact ⟨[Event.dpmSuspendEnd, Event.prepareLateCb] ++ sEnterWakeEvs env state,
          by simp, mem_concat_vocab (by decide) hW⟩
      · exact ⟨[Event.dpmSuspendEnd, Event.prepareLateCb] ++ t2,
          ht2.trans (by simp), mem_concat_vocab (by decide) hv2⟩
    · exact ⟨[Event.dpmSuspendEnd] ++ t1, ht1.trans (by simp),
        mem_concat_vocab (by decide) hv1⟩

lemma suspend_enter_core_st (env : Env) (state : Int) (k : Nat) (w : Bool)
    (st : St) (acc : List Event) :
    (suspend_enter_core env state k w st acc).2.2.1.success = st.success ∧
      (suspend_enter_core env state k w st acc).2.2.1.fail = st.fail ∧
      (suspend_enter_core env state k w st acc).2.2.1.lockHeld = st.lockHeld ∧
      (suspend_enter_core env state k w st acc).2.2.1.failed_freeze
        = st.failed_freeze := by
  simp only [suspend_enter_core]
  by_cases h1 : env.dpm_suspend_end k ≠ 0
  · rw [if_pos h1]
    simp
  · rw [if_neg h1]
    split
    · split_ifs with h2
      · simp
      · exact suspend_enter_inner_st env state k w st _
    · exact suspend_enter_inner_st env state k w st _

lemma suspend_enter_shape (env : Env) (state : Int) (k : Nat) (w : Bool)
    (st : St) :
    ∃ t, (suspend_enter env state k w st).2.2.2 = Event.suspendEnterCall :: t ∧
      ∀ e ∈ t, e ∈ seTailVocab := by
  have hF := sEnterFinishEvs_vocab env state
  obtain ⟨t1, ht1, hv1⟩ :=
    suspend_enter_core_shape env state k w st [Event.suspendEnterCall]
  obtain ⟨t2, ht2, hv2⟩ := suspend_enter_core_shape env state k w st
    [Event.suspendEnterCall, Event.prepareCb]
  simp only [suspend_enter]
  split
  · split_ifs with h1
    · exact ⟨Event.prepareCb :: sEnterFinishEvs env state, by simp,
        mem_cons_vocab (by decide) hF⟩
    · exact ⟨Event.prepareCb :: t2, ht2.trans (by simp),
        mem_cons_vocab (by decide) hv2⟩
  · exact ⟨t1, ht1.trans (by simp), hv1⟩

lemma suspend_enter_evs_mem (env : Env) (state : Int) (k : Nat) (w : Bool)
    (st : St) (e : Event) (he : e ∈ (suspend_enter env state k w st).2.2.2) :
    e = Event.suspendEnterCall ∨ e ∈ seTailVocab := by
  obtain ⟨t, ht, hv⟩ := suspend_enter_shape env state k w st
  rw [ht] at he
  rcases List.mem_cons.mp he with h | h
  · exact Or.inl h
  · exact Or.inr (hv e h)

lemma suspend_enter_count_call (env : Env) (state : Int) (k : Nat) (w : Bool)
    (st : St) :
    ((suspend_enter env state k w st).2.2.2).count Event.suspendEnterCall = 1 := by
  obtain ⟨t, ht, hv⟩ := suspend_enter_shape env state k w st
  rw [ht]
  have hnot : Event.suspendEnterCall ∉ t := by
    intro hmem
    have := hv _ hmem
    simp [seTailVocab] at this
  simp [List.count_cons, List.count_eq_zero.mpr hnot]

lemma suspend_enter_stats (env : Env) (state : Int) (k : Nat) (w : Bool)
    (st : St) :
    (suspend_enter env state k w st).2.2.1.success = st.success ∧
      (suspend_enter env state k w st).2.2.1.fail = st.fail ∧
      (suspend_enter env state k w st).2.2.1.lockHeld = st.lockHeld ∧
      (suspend_enter env state k w st).2.2.1.failed_freeze = st.failed_freeze := by
  simp only [suspend_enter]
  split
  · split_ifs with h1
    · simp
    · exact suspend_enter_core_st env state k w st _
  · exact suspend_enter_core_st env state k w st _

lemma suspend_enter_loop_evs_mem (env : Env) (state : Int) :
    ∀ (fuel k : Nat) (w : Bool) (st : St) (e : Event),
      e ∈ (suspend_enter_loop env state fuel k w st).2.2.2 →
      e = Event.suspendEnterCall ∨ e ∈ seTailVocab := by
  intro fuel
  induction fuel with
  | zero =>
    intro k w st e he
    simp [suspend_enter_loop] at he
  | succ n ih =>
    intro k w st e he
    rw [suspend_enter_loop] at he
    rcases h : suspend_enter env state k w st with ⟨r, wk, st1, evs⟩
    rw [h] at he
    cases r with
    | none =>
      simp at he
      exact suspend_enter_evs_mem env state k w st e (by rw [h]; simpa using he)
    | some err =>
      simp only [] at he
      split at he
      · rcases h2 : suspend_enter_loop env state n (k + 1) wk st1 with ⟨r2, wk2, st2, evs2⟩
        rw [h2] at he
        simp at he
        rcases he with he | he
        · exact suspend_enter_evs_mem env state k w st e (by rw [h]; simpa using he)
        · exact ih (k + 1) wk st1 e (by rw [h2]; simpa using he)
      · simp at he
        exact suspend_enter_evs_mem env state k w st e (by rw [h]; simpa using he)

lemma suspend_enter_loop_stats (env : Env) (state : Int) :
    ∀ (fuel k : Nat) (w : Bool) (st : St),
      (suspend_enter_loop env state fuel k w st).2.2.1.success = st.success ∧
        (suspend_enter_loop env state fuel k w st).2.2.1.fail = st.fail ∧
        (suspend_enter_loop env state fuel k w st).2.2.1.lockHeld = st.lockHeld ∧
        (suspend_enter_loop env state fuel k w st).2.2.1.failed_freeze
          = st.failed_freeze := by
  intro fuel
  induction fuel with
  | zero =>
    intro k w st
    simp [suspend_enter_loop]
  | succ n ih =>
    intro k w st
    rw [suspend_enter_loop]
    rcases h : suspend_enter env state k w st with ⟨r, wk, st1, evs⟩
    have hst := suspend_enter_stats env state k w st
    rw [h] at hst
    cases r with
    | none => simpa using hst
    | some err =>
      simp only []
      split
      · rcases h2 : suspend_enter_loop env state n (k + 1) wk st1 with ⟨r2, wk2, st2, evs2⟩
        have h3 := ih (k + 1) wk st1
        rw [h2] at h3
        simp only [Prod.snd, Prod.fst] at h3 hst ⊢
        exact ⟨h3.1.trans hst.1, (h3.2.1).trans hst.2.1,
          (h3.2.2.1).trans hst.2.2.1, (h3.2.2.2).trans hst.2.2.2⟩
      · simpa using hst

end Lemmas2

section Lemmas3

lemma sEnterWakeEvs_freeze (env : Env) :
    sEnterWakeEvs env PM_SUSPEND_FREEZE = [Event.dpmResumeStart] := by
  simp [sEnterWakeEvs, sEnterFinishEvs, need_suspend_ops_freeze]

lemma suspend_enter_freeze_evs_mem (env : Env) (k : Nat) (w : Bool) (st : St) :
    ∀ e ∈ (suspend_enter env PM_SUSPEND_FREEZE k w st).2.2.2,
      e ∈ [Event.suspendEnterCall, Event.dpmSuspendEnd, Event.freezeEnterEv,
        Event.dpmResumeStart] := by
  intro e he
  simp only [suspend_enter, suspend_enter_core, suspend_enter_inner,
    need_suspend_ops_freeze, freeze_enter, sEnterWakeEvs_freeze,
    sEnterFinishEvs, Bool.false_eq_true, if_false, false_and, if_true] at he
  split_ifs at he <;> simp_all <;> tauto

lemma suspend_enter_freeze_blocked (env : Env) (k : Nat) (w : Bool) (st : St)
    (hb : (suspend_enter env PM_SUSPEND_FREEZE k w st).1 = none) :
    (suspend_enter env PM_SUSPEND_FREEZE k w st).2.2.2
      = [Event.suspendEnterCall, Event.dpmSuspendEnd, Event.freezeEnterEv] := by
  simp only [suspend_enter, suspend_enter_core, suspend_enter_inner,
    need_suspend_ops_freeze, freeze_enter, sEnterWakeEvs_freeze,
    sEnterFinishEvs, Bool.false_eq_true, if_false, false_and, if_true] at hb ⊢
  split_ifs at hb ⊢ <;> simp_all

lemma suspend_enter_loop_freeze (env : Env) (fuel k : Nat) (w : Bool) (st : St) :
    suspend_enter_loop env PM_SUSPEND_FREEZE (fuel + 1) k w st
      = suspend_enter env PM_SUSPEND_FREEZE k w st := by
  rw [suspend_enter_loop]
  rcases h : suspend_enter env PM_SUSPEND_FREEZE k w st with ⟨r, wk, st1, evs⟩
  cases r with
  | none => rfl
  | some e =>
    simp only []
    rw [if_neg]
    rintro ⟨-, -, hneed, -⟩
    rw [need_suspend_ops_freeze] at hneed
    exact absurd hneed (by decide)

lemma suspend_enter_loop_count_true (env : Env) (state : Int) (fuel k : Nat)
    (w : Bool) (st : St) (e : Int) (wk : Bool) (st1 : St) (evs1 : List Event)
    (h : suspend_enter env state k w st = (some e, wk, st1, evs1))
    (hc : e = 0 ∧ wk = false ∧ need_suspend_ops state = true ∧ sa_call env k = true) :
    ((suspend_enter_loop env state (fuel + 1) k w st).2.2.2).count
        Event.suspendEnterCall
      = 1 + ((suspend_enter_loop env state fuel (k + 1) wk st1).2.2.2).count
        Event.suspendEnterCall := by
  have hcnt := suspend_enter_count_call env state k w st
  rw [h] at hcnt
  rw [suspend_enter_loop, h]
  simp only []
  rw [if_pos hc]
  rcases h2 : suspend_enter_loop env state fuel (k + 1) wk st1 with ⟨r2, wk2, st2, evs2⟩
  simp only [List.count_append]
  simp at hcnt
  omega

lemma suspend_enter_loop_count_false (env : Env) (state : Int) (fuel k : Nat)
    (w : Bool) (st : St) (e : Int) (wk : Bool) (st1 : St) (evs1 : List Event)
    (h : suspend_enter env state k w st = (some e, wk, st1, evs1))
    (hc : ¬(e = 0 ∧ wk = false ∧ need_suspend_ops state = true
      ∧ sa_call env k = true)) :
    ((suspend_enter_loop env state (fuel + 1) k w st).2.2.2).count
      Event.suspendEnterCall = 1 := by
  have hcnt := suspend_enter_count_call env state k w st
  rw [h] at hcnt
  rw [suspend_enter_loop, h]
  simp only []
  rw [if_neg hc]
  simpa using hcnt

lemma suspend_enter_loop_no_outer (env : Env) (state : Int) (fuel k : Nat)
    (w : Bool) (st : St) :
    ∀ e ∈ [Event.beginCb, Event.suspendConsole, Event.ftraceStop,
        Event.dpmSuspendStart, Event.thawProcesses, Event.recoverCb,
        Event.endCb, Event.dpmResumeEnd, Event.lockRelease],
      e ∉ (suspend_enter_loop env state fuel k w st).2.2.2 := by
  intro e he hmem
  rcases suspend_enter_loop_evs_mem env state fuel k w st e hmem with h | h
  · subst h
    simp at he
  · simp [seTailVocab] at h
    simp at he
    rcases h with rfl | rfl | rfl | rfl | rfl | rfl | rfl | rfl | rfl | rfl |
      rfl | rfl | rfl | rfl | rfl <;> simp_all

lemma sdae_devices_st (env : Env) (state : Int) (st : St) (acc : List Event) :
    (sdae_devices env state st acc).2.1.success = st.success ∧
      (sdae_devices env state st acc).2.1.fail = st.fail ∧
      (sdae_devices env state st acc).2.1.lockHeld = st.lockHeld ∧
      (sdae_devices env state st acc).2.1.failed_freeze = st.failed_freeze := by
  simp only [sdae_devices]
  split_ifs with h1 h2
  · simp
  · simp
  · rcases h : suspend_enter_loop env state env.fuel 0 false st with ⟨r, wk, st1, evs⟩
    have hl := suspend_enter_loop_stats env state env.fuel 0 false st
    rw [h] at hl
    cases r <;> simpa using hl

lemma sdae_st (env : Env) (state : Int) (st : St) :
    (suspend_devices_and_enter env state st).2.1.success = st.success ∧
      (suspend_devices_and_enter env state st).2.1.fail = st.fail ∧
      (suspend_devices_and_enter env state st).2.1.lockHeld = st.lockHeld ∧
      (suspend_devices_and_enter env state st).2.1.failed_freeze
        = st.failed_freeze := by
  simp only [suspend_devices_and_enter]
  by_cases h1 : need_suspend_ops state = true ∧ env.suspend_ops.isNone = true
  · rw [if_pos h1]
    simp
  · rw [if_neg h1]
    split
    · split_ifs with h2
      · simp
      · exact sdae_devices_st env state st _
    · exact sdae_devices_st env state st _

lemma enter_state_locked_stats (env : Env) (state : Int) (st2 : St)
    (evs0 : List Event) :
    (enter_state_locked env state st2 evs0).2.1.success = st2.success ∧
      (enter_state_locked env state st2 evs0).2.1.fail = st2.fail := by
  have hps := suspend_prepare_stats env state st2
  have hds := sdae_st env state (suspend_prepare env state st2).2.1
  simp only [enter_state_locked]
  split_ifs with h1 h2
  · simp only [Prod.fst, Prod.snd] at hps ⊢
    exact ⟨hps.1, hps.2.1⟩
  · simp only [Prod.fst, Prod.snd] at hps ⊢
    exact ⟨hps.1, hps.2.1⟩
  · rcases hd : suspend_devices_and_enter env state
        (suspend_prepare env state st2).2.1 with ⟨ro, st4, devs⟩
    rw [hd] at hds
    cases ro with
    | none =>
      simp only [Prod.fst, Prod.snd] at hps hds ⊢
      exact ⟨hds.1.trans hps.1, (hds.2.1).trans hps.2.1⟩
    | some e =>
      simp only [Prod.fst, Prod.snd] at hps hds ⊢
      exact ⟨hds.1.trans hps.1, (hds.2.1).trans hps.2.1⟩

lemma enter_state_stats (env : Env) (state : Int) (st : St) :
    (enter_state env state st).2.1.success = st.success ∧
      (enter_state env state st).2.1.fail = st.fail := by
  simp only [enter_state]
  split_ifs with h1 h2 h3
  · simp
  · simp
  · have := enter_state_locked_stats env state
      (freeze_begin { st with lockHeld := true })
      [Event.lockAcquire, Event.freezeBeginEv, Event.syncFS]
    simpa [freeze_begin] using this
  · have := enter_state_locked_stats env state ({ st with lockHeld := true })
      [Event.lockAcquire, Event.syncFS]
    simpa using this

end Lemmas3

section Claims

/-- Claim C10: for every state value outside the open range
(PM_SUSPEND_ON, PM_SUSPEND_MAX), pm_suspend returns -EINVAL before
attempting the lock, the filesystem sync, any phase, or any statistics
update: the returned state equals the input state and no collaborator
event is performed. -/
theorem C10_out_of_range_rejected (env : Env) (state : Int) (st : St)
    (h : state ≤ PM_SUSPEND_ON ∨ PM_SUSPEND_MAX ≤ state) :
    pm_suspend env state st = (some (-EINVAL), st, []) := by
  simp only [pm_suspend]
  rw [if_pos h]

theorem C10_out_of_range_rejected_witness :
    pm_suspend envOk 4 st0 = (some (-EINVAL), st0, []) :=
  C10_out_of_range_rejected envOk 4 st0 (by decide)

/-- Claim C7 counterexample: with the lock held by a concurrent caller, a
second enter_state call whose state fails validation (PM_SUSPEND_STANDBY
with no registered driver) returns -ENODEV, not -EBUSY, refuting the claim
that every second caller gets the Busy error. -/
theorem C7_counterexample :
    stLocked.lockHeld = true ∧
      (enter_state envNoOps PM_SUSPEND_STANDBY stLocked).1 = some (-ENODEV) ∧
      (enter_state envNoOps PM_SUSPEND_STANDBY stLocked).1 ≠ some (-EBUSY) := by
  refine ⟨rfl, ?_, ?_⟩ <;> decide

/-- Claim C7 (amended): if a second caller invokes enter_state while the
lock is held and the requested state passes validation, the call returns
-EBUSY immediately via the non-blocking try-acquire, with the state
unchanged and no phase executed (empty event list).  State values that
fail validation return -ENODEV instead, before the lock probe. -/
theorem C7_busy_when_locked (env : Env) (state : Int) (st : St)
    (hv : valid_state env state = true) (hl : st.lockHeld = true) :
    enter_state env state st = (some (-EBUSY), st, []) := by
  simp only [enter_state]
  rw [if_neg (by simp [hv]), if_pos hl]

theorem C7_busy_when_locked_witness :
    enter_state envOk PM_SUSPEND_FREEZE stLocked = (some (-EBUSY), stLocked, []) :=
  C7_busy_when_locked envOk PM_SUSPEND_FREEZE stLocked (by decide) (by decide)

/-- Claim C2 counterexample: pm_suspend called with PM_SUSPEND_ON (an
out-of-range state) returns -EINVAL with neither of the two statistics
counters incremented, refuting the claim that every call increments
exactly one of them. -/
theorem C2_counterexample :
    (pm_suspend envOk PM_SUSPEND_ON st0).1 = some (-EINVAL) ∧
      (pm_suspend envOk PM_SUSPEND_ON st0).2.1.success = st0.success ∧
      (pm_suspend envOk PM_SUSPEND_ON st0).2.1.fail = st0.fail := by
  refine ⟨?_, ?_, ?_⟩ <;> decide

/-- Claim C2 (amended): for every pm_suspend call whose state lies
strictly between PM_SUSPEND_ON and PM_SUSPEND_MAX and that returns,
exactly one of suspend_stats.success and suspend_stats.fail is
incremented, by exactly one, before the call returns: success on a zero
result, fail otherwise, never both and never neither.  Out-of-range calls
return -EINVAL without touching either counter. -/
theorem C2_stats_exactly_one (env : Env) (state : Int) (st : St) (r : Int)
    (h1 : PM_SUSPEND_ON < state) (h2 : state < PM_SUSPEND_MAX)
    (hsome : (pm_suspend env state st).1 = some r) :
    (r = 0 → (pm_suspend env state st).2.1.success = st.success + 1 ∧
      (pm_suspend env state st).2.1.fail = st.fail) ∧
    (r ≠ 0 → (pm_suspend env state st).2.1.fail = st.fail + 1 ∧
      (pm_suspend env state st).2.1.success = st.success) := by
  have hes := enter_state_stats env state st
  have hrange : ¬(state ≤ PM_SUSPEND_ON ∨ PM_SUSPEND_MAX ≤ state) := by
    simp only [PM_SUSPEND_ON, PM_SUSPEND_MAX] at h1 h2 ⊢
    omega
  simp only [pm_suspend, if_neg hrange] at hsome ⊢
  rcases h : enter_state env state st with ⟨ro, st1, evs1⟩
  rw [h] at hsome hes
  cases ro with
  | none => simp at hsome
  | some e =>
    simp only [Prod.fst, Prod.snd] at hes
    obtain ⟨hs1, hs2⟩ := hes
    by_cases he : e = 0
    · subst he
      simp at hsome ⊢
      constructor
      · intro _
        constructor <;> omega
      · intro hr
        exfalso
        omega
    · simp [he] at hsome ⊢
      constructor
      · intro h0
        exfalso
        omega
      · intro _
        constructor <;> omega

theorem C2_stats_exactly_one_witness :
    (pm_suspend envOk PM_SUSPEND_MEM st0).2.1.success = st0.success + 1 ∧
      (pm_suspend envOk PM_SUSPEND_MEM st0).2.1.fail = st0.fail :=
  (C2_stats_exactly_one envOk PM_SUSPEND_MEM st0 0 (by decide) (by decide)
    (by decide)).1 rfl

end Claims

section LemmasC1

lemma enter_state_locked_spec (env : Env) (state : Int) (st2 : St)
    (evs0 : List Event) (r : Int) (st' : St) (evs : List Event)
    (hret : enter_state_locked env state st2 evs0 = (some r, st', evs)) :
    st'.lockHeld = false ∧ Event.lockRelease ∈ evs ∧
      ((suspend_prepare env state st2).1 = 0 →
        ∃ pre, evs = pre ++ suspend_finish_evs ++ [Event.lockRelease]) ∧
      ((suspend_prepare env state st2).1 ≠ 0 →
        (Event.thawProcesses ∉ evs0 → Event.thawProcesses ∉ evs) ∧
        r = (suspend_prepare env state st2).1) := by
  have hpevs := suspend_prepare_evs_mem env state st2
  simp only [enter_state_locked] at hret
  by_cases hp : (suspend_prepare env state st2).1 ≠ 0
  · rw [if_pos hp] at hret
    simp only [Prod.mk.injEq, Option.some.injEq] at hret
    obtain ⟨h1, h2, h3⟩ := hret
    subst h2
    subst h3
    refine ⟨by simp, by simp, ?_, ?_⟩
    · intro h0
      exact absurd h0 hp
    · intro _
      constructor
      · intro h0 hmem
        simp only [List.mem_append] at hmem
        rcases hmem with (hmem | hmem) | hmem
        · exact h0 hmem
        · have := hpevs _ hmem
          simp at this
        · simp at hmem
      · exact h1.symm
  · rw [if_neg hp] at hret
    by_cases ht : suspend_test env TEST_FREEZER = true
    · rw [if_pos ht] at hret
      simp only [Prod.mk.injEq, Option.some.injEq] at hret
      obtain ⟨h1, h2, h3⟩ := hret
      subst h2
      subst h3
      refine ⟨by simp, by simp, ?_, ?_⟩
      · intro _
        exact ⟨evs0 ++ (suspend_prepare env state st2).2.2, by simp⟩
      · intro hne
        exact absurd (not_not.mp hp) hne
    · rw [if_neg ht] at hret
      rcases hd : suspend_devices_and_enter env state
          (suspend_prepare env state st2).2.1 with ⟨ro, st4, devs⟩
      rw [hd] at hret
      cases ro with
      | none => simp at hret
      | some e =>
        simp only [Prod.mk.injEq, Option.some.injEq] at hret
        obtain ⟨h1, h2, h3⟩ := hret
        subst h2
        subst h3
        refine ⟨by simp, by simp, ?_, ?_⟩
        · intro _
          exact ⟨evs0 ++ (suspend_prepare env state st2).2.2 ++ devs, by simp⟩
        · intro hne
          exact absurd (not_not.mp hp) hne

end LemmasC1

section ClaimsC1

/-- Claim C1 counterexample: with a failing PM_SUSPEND_PREPARE notifier
(prepare phase fails), enter_state for the freeze state returns the
prepare error yet never runs the Finish phase (no thaw-processes event),
refuting the claim that the Finish phase runs regardless of prior
outcome.  The lock is still released. -/
theorem C1_counterexample :
    (enter_state envPrepFail PM_SUSPEND_FREEZE st0).1 = some (-5) ∧
      Event.thawProcesses ∉ (enter_state envPrepFail PM_SUSPEND_FREEZE st0).2.2 ∧
      (enter_state envPrepFail PM_SUSPEND_FREEZE st0).2.1.lockHeld = false := by
  refine ⟨?_, ?_, ?_⟩ <;> decide

/-- Claim C1 (amended): for every enter_state call that acquires the lock
and returns, the lock is released before returning; the Finish phase
(suspend_finish, ending in the lock release) runs exactly when the
Prepare phase succeeded; when Prepare fails, the call releases the lock
and returns the Prepare error without running the Finish phase (Prepare
performs its own internal unwind). -/
theorem C1_finish_iff_prepare (env : Env) (state : Int) (st : St) (r : Int)
    (st' : St) (evs : List Event)
    (hv : valid_state env state = true) (hl : st.lockHeld = false)
    (hret : enter_state env state st = (some r, st', evs)) :
    st'.lockHeld = false ∧ Event.lockRelease ∈ evs ∧
      ((suspend_prepare env state st).1 = 0 →
        ∃ pre, evs = pre ++ suspend_finish_evs ++ [Event.lockRelease]) ∧
      ((suspend_prepare env state st).1 ≠ 0 →
        Event.thawProcesses ∉ evs ∧ r = (suspend_prepare env state st).1) := by
  simp only [enter_state] at hret
  rw [if_neg (by simp [hv]), if_neg (by simp [hl])] at hret
  by_cases hs : state = PM_SUSPEND_FREEZE
  · rw [if_pos hs] at hret
    have h := enter_state_locked_spec env state
      (freeze_begin { st with lockHeld := true }) _ r st' evs hret
    have hfst := suspend_prepare_fst_const env state
      (freeze_begin { st with lockHeld := true }) st
    rw [hfst] at h
    exact ⟨h.1, h.2.1, h.2.2.1,
      fun hne => ⟨(h.2.2.2 hne).1 (by decide), (h.2.2.2 hne).2⟩⟩
  · rw [if_neg hs] at hret
    have h := enter_state_locked_spec env state
      ({ st with lockHeld := true }) _ r st' evs hret
    have hfst := suspend_prepare_fst_const env state
      ({ st with lockHeld := true }) st
    rw [hfst] at h
    exact ⟨h.1, h.2.1, h.2.2.1,
      fun hne => ⟨(h.2.2.2 hne).1 (by decide), (h.2.2.2 hne).2⟩⟩

theorem C1_finish_iff_prepare_witness :
    st0.lockHeld = false ∧
      Event.lockRelease ∈ ([Event.lockAcquire, Event.freezeBeginEv, Event.syncFS,
        Event.prepareConsole, Event.notifierPrepare, Event.notifierPost,
        Event.restoreConsole, Event.lockRelease] : List Event) ∧
      ((suspend_prepare envPrepFail PM_SUSPEND_FREEZE st0).1 = 0 →
        ∃ pre, ([Event.lockAcquire, Event.freezeBeginEv, Event.syncFS,
          Event.prepareConsole, Event.notifierPrepare, Event.notifierPost,
          Event.restoreConsole, Event.lockRelease] : List Event)
            = pre ++ suspend_finish_evs ++ [Event.lockRelease]) ∧
      ((suspend_prepare envPrepFail PM_SUSPEND_FREEZE st0).1 ≠ 0 →
        Event.thawProcesses ∉ ([Event.lockAcquire, Event.freezeBeginEv,
          Event.syncFS, Event.prepareConsole, Event.notifierPrepare,
          Event.notifierPost, Event.restoreConsole, Event.lockRelease]
            : List Event) ∧
        (-5 : Int) = (suspend_prepare envPrepFail PM_SUSPEND_FREEZE st0).1) :=
  C1_finish_iff_prepare envPrepFail PM_SUSPEND_FREEZE st0 (-5) st0
    [Event.lockAcquire, Event.freezeBeginEv, Event.syncFS,
      Event.prepareConsole, Event.notifierPrepare, Event.notifierPost,
      Event.restoreConsole, Event.lockRelease]
    (by decide) (by decide) (by decide)

end ClaimsC1

section LemmasC4

lemma sdae_gates_freeze (env : Env) :
    sdaeBeginEvs env PM_SUSPEND_FREEZE = [] ∧
      sdaeEndEvs env PM_SUSPEND_FREEZE = [] ∧
      sdaeRecoverEvs env PM_SUSPEND_FREEZE = [] := by
  refine ⟨?_, ?_, ?_⟩ <;>
    simp [sdaeBeginEvs, sdaeEndEvs, sdaeRecoverEvs, need_suspend_ops_freeze]

lemma sdae_freeze_spec (env : Env) (st : St) :
    (∀ e ∈ (suspend_devices_and_enter env PM_SUSPEND_FREEZE st).2.2,
      e ∉ lowLevelEvs) ∧
    (0 < env.fuel →
      (suspend_devices_and_enter env PM_SUSPEND_FREEZE st).1 = none →
      ∃ pre, (suspend_devices_and_enter env PM_SUSPEND_FREEZE st).2.2
        = pre ++ [Event.freezeEnterEv]) := by
  obtain ⟨hb, he, hr⟩ := sdae_gates_freeze env
  simp only [suspend_devices_and_enter, sdae_devices, sdaeResumeEvs,
    need_suspend_ops_freeze, Bool.false_eq_true, false_and, if_false, hb, he, hr]
  split_ifs with h1 h2
  · constructor
    · intro e hmem
      simp at hmem
      rcases hmem with rfl | rfl | rfl | rfl | rfl | rfl <;> decide
    · intro _ hnone
      simp at hnone
  · constructor
    · intro e hmem
      simp at hmem
      rcases hmem with rfl | rfl | rfl | rfl | rfl | rfl <;> decide
    · intro _ hnone
      simp at hnone
  · rcases hfu : env.fuel with _ | n
    · simp only [suspend_enter_loop]
      constructor
      · intro e hmem
        simp at hmem
        rcases hmem with rfl | rfl | rfl <;> decide
      · intro hpos
        exact absurd hpos (by omega)
    · rw [suspend_enter_loop_freeze]
      rcases hse : suspend_enter env PM_SUSPEND_FREEZE 0 false st
        with ⟨r, wk, st1, sevs⟩
      have hmem := suspend_enter_freeze_evs_mem env 0 false st
      have hblk := suspend_enter_freeze_blocked env 0 false st
      rw [hse] at hmem hblk
      simp only [Prod.fst, Prod.snd] at hmem
      have hnol : ∀ e ∈ sevs, e ∉ lowLevelEvs := by
        intro e hm hbad
        have h4 := hmem e hm
        fin_cases h4 <;> simp_all [lowLevelEvs]
      cases r with
      | none =>
        constructor
        · intro e hm
          have hcanon : e = Event.suspendConsole ∨ e = Event.ftraceStop ∨
              e = Event.dpmSuspendStart ∨ e ∈ sevs ∨
              e = Event.dpmResumeEnd ∨ e = Event.ftraceStart ∨
              e = Event.resumeConsole := by
            simp only [List.nil_append, List.append_nil, List.mem_append,
              List.mem_cons, List.not_mem_nil, or_false] at hm
            tauto
          rcases hcanon with rfl | rfl | rfl | hm2 | rfl | rfl | rfl
          · decide
          · decide
          · decide
          · exact hnol e hm2
          · decide
          · decide
          · decide
        · intro _ _
          have hsevs : sevs = [Event.suspendEnterCall, Event.dpmSuspendEnd,
              Event.freezeEnterEv] := hblk (by simp)
          subst hsevs
          exact ⟨[Event.suspendConsole, Event.ftraceStop, Event.dpmSuspendStart,
            Event.suspendEnterCall, Event.dpmSuspendEnd], by simp⟩
      | some e0 =>
        constructor
        · intro e hm
          have hcanon : e = Event.suspendConsole ∨ e = Event.ftraceStop ∨
              e = Event.dpmSuspendStart ∨ e ∈ sevs ∨
              e = Event.dpmResumeEnd ∨ e = Event.ftraceStart ∨
              e = Event.resumeConsole := by
            simp only [List.nil_append, List.append_nil, List.append_assoc,
              List.mem_append, List.mem_cons, List.not_mem_nil, or_false] at hm
            tauto
          rcases hcanon with rfl | rfl | rfl | hm2 | rfl | rfl | rfl
          · decide
          · decide
          · decide
          · exact hnol e hm2
          · decide
          · decide
          · decide
        · intro _ hnone
          simp at hnone

lemma enter_state_locked_freeze_spec (env : Env) (st2 : St) (evs0 : List Event)
    (h0 : ∀ e ∈ evs0, e ∉ lowLevelEvs) :
    (∀ e ∈ (enter_state_locked env PM_SUSPEND_FREEZE st2 evs0).2.2,
      e ∉ lowLevelEvs) ∧
    (0 < env.fuel →
      (enter_state_locked env PM_SUSPEND_FREEZE st2 evs0).1 = none →
      ∃ pre, (enter_state_locked env PM_SUSPEND_FREEZE st2 evs0).2.2
        = pre ++ [Event.freezeEnterEv]) := by
  have hpevs := suspend_prepare_evs_mem env PM_SUSPEND_FREEZE st2
  have hpnot : ∀ e ∈ (suspend_prepare env PM_SUSPEND_FREEZE st2).2.2,
      e ∉ lowLevelEvs := by
    intro e hm hbad
    have := hpevs e hm
    fin_cases hbad <;> simp_all
  simp only [enter_state_locked]
  split_ifs with h1 h2
  · constructor
    · intro e hm
      simp only [List.mem_append, List.mem_cons, List.not_mem_nil,
        or_false] at hm
      rcases hm with (hm | hm) | rfl
      · exact h0 e hm
      · exact hpnot e hm
      · decide
    · intro _ hnone
      simp at hnone
  · constructor
    · intro e hm
      simp only [suspend_finish_evs, List.mem_append, List.mem_cons,
        List.not_mem_nil, or_false] at hm
      rcases hm with ((hm | hm) | rfl | rfl | rfl) | rfl
      · exact h0 e hm
      · exact hpnot e hm
      · decide
      · decide
      · decide
      · decide
    · intro _ hnone
      simp at hnone
  · rcases hd : suspend_devices_and_enter env PM_SUSPEND_FREEZE
        (suspend_prepare env PM_SUSPEND_FREEZE st2).2.1 with ⟨ro, st4, devs⟩
    have hds := sdae_freeze_spec env (suspend_prepare env PM_SUSPEND_FREEZE st2).2.1
    rw [hd] at hds
    cases ro with
    | none =>
      simp only [Prod.fst, Prod.snd] at hds ⊢
      constructor
      · intro e hm
        simp only [List.mem_append] at hm
        rcases hm with (hm | hm) | hm
        · exact h0 e hm
        · exact hpnot e hm
        · exact hds.1 e hm
      · intro hfu _
        obtain ⟨pre, hpre⟩ := hds.2 hfu (by simp)
        exact ⟨evs0 ++ (suspend_prepare env PM_SUSPEND_FREEZE st2).2.2 ++ pre,
          by rw [hpre]; simp⟩
    | some e0 =>
      simp only [Prod.fst, Prod.snd] at hds ⊢
      constructor
      · intro e hm
        simp only [suspend_finish_evs, List.mem_append, List.mem_cons,
          List.not_mem_nil, or_false] at hm
        rcases hm with (((hm | hm) | hm) | rfl | rfl | rfl) | rfl
        · exact h0 e hm
        · exact hpnot e hm
        · exact hds.1 e hm
        · decide
        · decide
        · decide
        · decide
      · intro _ hnone
        simp at hnone

end LemmasC4

section ClaimsC4

lemma enter_state_freeze_spec (env : Env) (st : St) :
    (∀ e ∈ (enter_state env PM_SUSPEND_FREEZE st).2.2, e ∉ lowLevelEvs) ∧
    (0 < env.fuel → (enter_state env PM_SUSPEND_FREEZE st).1 = none →
      ∃ pre, (enter_state env PM_SUSPEND_FREEZE st).2.2
        = pre ++ [Event.freezeEnterEv]) := by
  simp only [enter_state]
  split_ifs with hv hl
  · exact ⟨by simp, fun _ hr => by simp at hr⟩
  · exact ⟨by simp, fun _ hr => by simp at hr⟩
  · exact enter_state_locked_freeze_spec env
      (freeze_begin { st with lockHeld := true }) _ (by decide)

lemma pm_suspend_shape (env : Env) (state : Int) (st : St)
    (h : ¬(state ≤ PM_SUSPEND_ON ∨ PM_SUSPEND_MAX ≤ state)) :
    (pm_suspend env state st).1 = (enter_state env state st).1 ∧
    ∃ tail, (pm_suspend env state st).2.2
        = Event.asusOtgOff :: ((enter_state env state st).2.2 ++ tail) ∧
      (∀ e ∈ tail, e ∈ [Event.saveFailedErrno, Event.statsFail,
        Event.statsSuccess]) ∧
      ((enter_state env state st).1 = none → tail = []) := by
  simp only [pm_suspend, if_neg h]
  rcases hes : enter_state env state st with ⟨ro, st1, evs1⟩
  cases ro with
  | none => exact ⟨by simp, [], by simp, by simp, fun _ => rfl⟩
  | some e =>
    by_cases hz : e ≠ 0
    · refine ⟨by simp [hz], [Event.saveFailedErrno, Event.statsFail],
        by simp [hz], by simp, ?_⟩
      intro hc
      simp at hc
    · refine ⟨by simp [hz], [Event.statsSuccess], by simp [hz], by simp, ?_⟩
      intro hc
      simp at hc

/-- Claim C4: for every suspend attempt with the Freeze sleep state, the
call trace never contains the secondary-processor offline step
(disable_nonboot_cpus), the interrupt-disable step
(arch_suspend_disable_irqs), the core-subsystem suspend (syscore_suspend),
or the platform enter callback; and whenever the call blocks (with fuel
available for the retry loop), the event it blocks on is the Freeze Wait
Primitive (the trace ends at freeze_enter). -/
theorem C4_freeze_never_low_level (env : Env) (st : St) :
    (∀ e ∈ (pm_suspend env PM_SUSPEND_FREEZE st).2.2, e ∉ lowLevelEvs) ∧
    (0 < env.fuel → (pm_suspend env PM_SUSPEND_FREEZE st).1 = none →
      ∃ pre, (pm_suspend env PM_SUSPEND_FREEZE st).2.2
        = pre ++ [Event.freezeEnterEv]) := by
  have hspec := enter_state_freeze_spec env st
  obtain ⟨h1, tail, h2, h3, h4⟩ := pm_suspend_shape env PM_SUSPEND_FREEZE st
    (by decide)
  constructor
  · intro e hm
    rw [h2] at hm
    simp only [List.mem_cons, List.mem_append] at hm
    rcases hm with rfl | hm | hm
    · decide
    · exact hspec.1 e hm
    · have h5 := h3 e hm
      intro hbad
      fin_cases h5 <;> simp_all [lowLevelEvs]
  · intro hfu hnone
    rw [h1] at hnone
    obtain ⟨pre, hpre⟩ := hspec.2 hfu hnone
    refine ⟨Event.asusOtgOff :: pre, ?_⟩
    rw [h2, h4 hnone, hpre]
    simp

theorem C4_freeze_never_low_level_witness :
    Event.freezeEnterEv ∉ lowLevelEvs ∧
    ∃ pre, (pm_suspend envNoSig PM_SUSPEND_FREEZE st0).2.2
      = pre ++ [Event.freezeEnterEv] :=
  ⟨(C4_freeze_never_low_level envNoSig st0).1 Event.freezeEnterEv (by decide),
    (C4_freeze_never_low_level envNoSig st0).2 (by decide) (by decide)⟩

end ClaimsC4

section ClaimsC8

lemma sEnterWakeEvs_mem3 (env : Env) (state : Int) :
    ∀ e ∈ sEnterWakeEvs env state,
      e = Event.wakeCb ∨ e = Event.dpmResumeStart ∨ e = Event.finishCb := by
  intro e he
  unfold sEnterWakeEvs sEnterFinishEvs at he
  split_ifs at he <;> simp_all <;> tauto

/-- Claim C8: in suspend_enter, when the wakeup-pending check returns true
just before hardware entry (all earlier steps having succeeded), the
platform enter callback is not invoked, the wakeup flag true is reported
to the caller, the attempt's result is success (0), and the retry loop
performs no further iteration, returning the same result. -/
theorem C8_spurious_wake_success (env : Env) (state : Int) (k fuel : Nat)
    (st : St) (o : PlatformSuspendOps)
    (hn : need_suspend_ops state = true)
    (hops : env.suspend_ops = some o)
    (hp : o.prepare = none) (hpl : o.prepare_late = none)
    (hde : env.dpm_suspend_end k = 0)
    (htl : env.pm_test_level = TEST_NONE)
    (hdn : env.disable_nonboot k = 0)
    (hsc : env.syscore k = 0)
    (hwp : env.wakeup_pending k = true) :
    (suspend_enter env state k false st).1 = some 0 ∧
      (suspend_enter env state k false st).2.1 = true ∧
      Event.enterCb ∉ (suspend_enter env state k false st).2.2.2 ∧
      Event.wakeupCheck ∈ (suspend_enter env state k false st).2.2.2 ∧
      suspend_enter_loop env state (fuel + 1) k false st
        = suspend_enter env state k false st := by
  have hT1 : suspend_test env TEST_PLATFORM = false := by
    rw [suspend_test, htl]
    rfl
  have hT2 : suspend_test env TEST_CPUS = false := by
    rw [suspend_test, htl]
    rfl
  have hT3 : suspend_test env TEST_CORE = false := by
    rw [suspend_test, htl]
    rfl
  have hsf : ¬(state = PM_SUSPEND_FREEZE) := by
    intro hcon
    rw [hcon, need_suspend_ops_freeze] at hn
    exact absurd hn (by decide)
  have hresult : suspend_enter env state k false st = (some 0, true, st,
      [Event.suspendEnterCall, Event.dpmSuspendEnd, Event.disableNonboot,
        Event.archDisableIrqs, Event.syscoreSuspendEv, Event.wakeupCheck,
        Event.syscoreResumeEv, Event.archEnableIrqs, Event.enableNonboot]
        ++ sEnterWakeEvs env state) := by
    simp [suspend_enter, suspend_enter_core, suspend_enter_inner, opsOf,
      hops, hp, hpl, hn, hde, hdn, hsc, hwp, hT1, hT2, hT3, hsf]
  refine ⟨by rw [hresult], by rw [hresult], ?_, by rw [hresult]; simp, ?_⟩
  · rw [hresult]
    intro hmem
    simp only [Prod.snd, List.mem_append, List.mem_cons, List.not_mem_nil,
      or_false] at hmem
    rcases hmem with h | h
    · rcases h with h | h | h | h | h | h | h | h | h <;> exact absurd h (by decide)
    · rcases sEnterWakeEvs_mem3 env state _ h with h2 | h2 | h2 <;>
        exact absurd h2 (by decide)
  · rw [suspend_enter_loop, hresult]
    simp

theorem C8_spurious_wake_success_witness :
    (suspend_enter envWake PM_SUSPEND_MEM 0 false st0).1 = some 0 ∧
      (suspend_enter envWake PM_SUSPEND_MEM 0 false st0).2.1 = true ∧
      Event.enterCb ∉ (suspend_enter envWake PM_SUSPEND_MEM 0 false st0).2.2.2 ∧
      Event.wakeupCheck ∈ (suspend_enter envWake PM_SUSPEND_MEM 0 false st0).2.2.2 ∧
      suspend_enter_loop envWake PM_SUSPEND_MEM (0 + 1) 0 false st0
        = suspend_enter envWake PM_SUSPEND_MEM 0 false st0 :=
  C8_spurious_wake_success envWake PM_SUSPEND_MEM 0 0 st0 opsWake
    (by decide) rfl rfl rfl rfl rfl rfl rfl rfl

end ClaimsC8

section ClaimsC9

/-- Claim C9: for a Freeze-state suspend with the lock free and every
collaborator succeeding, the Orchestrator resets the freeze wake flag
(freeze_begin) immediately after acquiring the lock and before any phase
(the trace begins lockAcquire, freezeBeginEv, syncFS); and when the
external freeze_wake signal arrives after that reset, the wait returns
and the attempt completes with success (0), a success-statistics
increment, and the full event trace below (which reaches freeze_enter and
none of the low-level processor steps). -/
theorem C9_freeze_signal_success (env : Env) (st : St) (n : Nat)
    (htl : env.pm_test_level = TEST_NONE)
    (hl : st.lockHeld = false)
    (hnp : env.notifier_prepare = 0)
    (hfp : env.freeze_processes = 0)
    (hds : env.dpm_suspend_start = 0)
    (hde : env.dpm_suspend_end 0 = 0)
    (hfw : env.freeze_wake_arrives = true)
    (hfu : env.fuel = n + 1) :
    pm_suspend env PM_SUSPEND_FREEZE st
      = (some 0,
        { st with
          lockHeld := false,
          suspend_freeze_wake := true,
          success := st.success + 1 },
        [Event.asusOtgOff, Event.lockAcquire, Event.freezeBeginEv, Event.syncFS,
          Event.prepareConsole, Event.notifierPrepare, Event.freezeProcesses,
          Event.suspendConsole, Event.ftraceStop, Event.dpmSuspendStart,
          Event.suspendEnterCall, Event.dpmSuspendEnd, Event.freezeEnterEv,
          Event.dpmResumeStart, Event.dpmResumeEnd, Event.ftraceStart,
          Event.resumeConsole, Event.thawProcesses, Event.notifierPost,
          Event.restoreConsole, Event.lockRelease, Event.statsSuccess]) := by
  have hv : valid_state env PM_SUSPEND_FREEZE = true := by
    simp [valid_state, htl]
  have hTF : suspend_test env TEST_FREEZER = false := by
    rw [suspend_test, htl]
    rfl
  have hTD : suspend_test env TEST_DEVICES = false := by
    rw [suspend_test, htl]
    rfl
  have hTP : suspend_test env TEST_PLATFORM = false := by
    rw [suspend_test, htl]
    rfl
  have hprep : suspend_prepare env PM_SUSPEND_FREEZE
      (freeze_begin { st with lockHeld := true })
      = (0, freeze_begin { st with lockHeld := true },
        [Event.prepareConsole, Event.notifierPrepare, Event.freezeProcesses]) := by
    simp [suspend_prepare, need_suspend_ops_freeze, hnp, hfp]
  have hse : suspend_enter env PM_SUSPEND_FREEZE 0 false
      (freeze_begin { st with lockHeld := true })
      = (some 0, false, { st with lockHeld := true, suspend_freeze_wake := true },
        [Event.suspendEnterCall, Event.dpmSuspendEnd, Event.freezeEnterEv,
          Event.dpmResumeStart]) := by
    simp [suspend_enter, suspend_enter_core, suspend_enter_inner, freeze_enter,
      freeze_begin, need_suspend_ops_freeze, sEnterWakeEvs_freeze, hde, hTP, hfw]
  have hsdae : suspend_devices_and_enter env PM_SUSPEND_FREEZE
      (freeze_begin { st with lockHeld := true })
      = (some 0, { st with lockHeld := true, suspend_freeze_wake := true },
        [Event.suspendConsole, Event.ftraceStop, Event.dpmSuspendStart,
          Event.suspendEnterCall, Event.dpmSuspendEnd, Event.freezeEnterEv,
          Event.dpmResumeStart, Event.dpmResumeEnd, Event.ftraceStart,
          Event.resumeConsole]) := by
    simp only [suspend_devices_and_enter, sdae_devices, need_suspend_ops_freeze,
      Bool.false_eq_true, false_and, if_false, hfu]
    rw [suspend_enter_loop_freeze, hse]
    simp [hds, hTD, sdaeResumeEvs, sdaeEndEvs, sdaeRecoverEvs,
      need_suspend_ops_freeze]
  have hlocked : enter_state_locked env PM_SUSPEND_FREEZE
      (freeze_begin { st with lockHeld := true })
      [Event.lockAcquire, Event.freezeBeginEv, Event.syncFS]
      = (some 0,
        { st with lockHeld := false, suspend_freeze_wake := true },
        [Event.lockAcquire, Event.freezeBeginEv, Event.syncFS,
          Event.prepareConsole, Event.notifierPrepare, Event.freezeProcesses,
          Event.suspendConsole, Event.ftraceStop, Event.dpmSuspendStart,
          Event.suspendEnterCall, Event.dpmSuspendEnd, Event.freezeEnterEv,
          Event.dpmResumeStart, Event.dpmResumeEnd, Event.ftraceStart,
          Event.resumeConsole, Event.thawProcesses, Event.notifierPost,
          Event.restoreConsole, Event.lockRelease]) := by
    simp only [enter_state_locked, hprep]
    simp [hTF, hsdae, suspend_finish_evs]
  simp only [pm_suspend]
  rw [if_neg (by decide)]
  simp only [enter_state]
  rw [if_neg (by simp [hv]), if_neg (by simp [hl]), if_pos trivial]
  rw [hlocked]
  simp

theorem C9_freeze_signal_success_witness :
    pm_suspend envOk PM_SUSPEND_FREEZE st0
      = (some 0,
        { st0 with
          lockHeld := false,
          suspend_freeze_wake := true,
          success := st0.success + 1 },
        [Event.asusOtgOff, Event.lockAcquire, Event.freezeBeginEv, Event.syncFS,
          Event.prepareConsole, Event.notifierPrepare, Event.freezeProcesses,
          Event.suspendConsole, Event.ftraceStop, Event.dpmSuspendStart,
          Event.suspendEnterCall, Event.dpmSuspendEnd, Event.freezeEnterEv,
          Event.dpmResumeStart, Event.dpmResumeEnd, Event.ftraceStart,
          Event.resumeConsole, Event.thawProcesses, Event.notifierPost,
          Event.restoreConsole, Event.lockRelease, Event.statsSuccess]) :=
  C9_freeze_signal_success envOk st0 9 rfl rfl rfl rfl rfl rfl rfl rfl

end ClaimsC9

section ClaimsC3

/-- Claim C3 counterexample: with the pm_test checkpoint at TEST_DEVICES,
state Suspend-to-RAM and a fully compliant driver, the attempt aborts
after the device-suspend step (the low-level controller is never invoked)
and the recover capability runs and devices are resumed — but the
top-level call returns 0 (success), not a non-success error code as the
claim states. -/
theorem C3_counterexample :
    (pm_suspend envTestDevices PM_SUSPEND_MEM st0).1 = some 0 ∧
      Event.recoverCb ∈ (pm_suspend envTestDevices PM_SUSPEND_MEM st0).2.2 ∧
      Event.dpmResumeEnd ∈ (pm_suspend envTestDevices PM_SUSPEND_MEM st0).2.2 ∧
      Event.suspendEnterCall ∉ (pm_suspend envTestDevices PM_SUSPEND_MEM st0).2.2 := by
  refine ⟨?_, ?_, ?_, ?_⟩ <;> decide

/-- Claim C3 (amended): with the checkpoint at the device-suspend level
(TEST_DEVICES), state Suspend-to-RAM and a compliant driver, the attempt
aborts after the device-suspend step without invoking the low-level enter
controller, invokes the driver's recover capability, resumes devices and
invokes the end capability — and the top-level call returns success (0),
incrementing the success statistic (the checkpoint abort is deliberately
not reported as an error). -/
theorem C3_test_devices_abort (env : Env) (st : St) (o : PlatformSuspendOps)
    (v : Int → Bool) (en : Int → Nat → Int) (b : Int → Int)
    (hops : env.suspend_ops = some o)
    (hvalid : o.valid = some v) (hv3 : v PM_SUSPEND_MEM = true)
    (henter : o.enter = some en)
    (hbegin : o.begin_ = some b) (hb : b PM_SUSPEND_MEM = 0)
    (hrec : o.recover = true) (hend : o.end_ = true)
    (htest : env.pm_test_level = TEST_DEVICES)
    (hnp : env.notifier_prepare = 0) (hfp : env.freeze_processes = 0)
    (hds : env.dpm_suspend_start = 0)
    (hl : st.lockHeld = false) :
    pm_suspend env PM_SUSPEND_MEM st
      = (some 0,
        { st with lockHeld := false, success := st.success + 1 },
        [Event.asusOtgOff, Event.lockAcquire, Event.syncFS,
          Event.prepareConsole, Event.notifierPrepare, Event.freezeProcesses,
          Event.beginCb, Event.suspendConsole, Event.ftraceStop,
          Event.dpmSuspendStart, Event.recoverCb, Event.dpmResumeEnd,
          Event.ftraceStart, Event.resumeConsole, Event.endCb,
          Event.thawProcesses, Event.notifierPost, Event.restoreConsole,
          Event.lockRelease, Event.statsSuccess]) := by
  have hopsOf : opsOf env = o := by
    simp [opsOf, hops]
  have hv3b : v 3 = true := hv3
  have hbb : b 3 = 0 := hb
  have hv : valid_state env PM_SUSPEND_MEM = true := by
    simp [valid_state, PM_SUSPEND_MEM, PM_SUSPEND_FREEZE, hops, hvalid, hv3b]
  have hTF : suspend_test env TEST_FREEZER = false := by
    rw [suspend_test, htest]
    rfl
  have hTD : suspend_test env TEST_DEVICES = true := by
    rw [suspend_test, htest]
    rfl
  have hprep : suspend_prepare env PM_SUSPEND_MEM ({ st with lockHeld := true })
      = (0, { st with lockHeld := true },
        [Event.prepareConsole, Event.notifierPrepare, Event.freezeProcesses]) := by
    simp [suspend_prepare, hnp, hfp, hopsOf, henter, hops]
  have hsdae : suspend_devices_and_enter env PM_SUSPEND_MEM
      ({ st with lockHeld := true })
      = (some 0, { st with lockHeld := true },
        [Event.beginCb, Event.suspendConsole, Event.ftraceStop,
          Event.dpmSuspendStart, Event.recoverCb, Event.dpmResumeEnd,
          Event.ftraceStart, Event.resumeConsole, Event.endCb]) := by
    simp [suspend_devices_and_enter, sdae_devices, hopsOf, hops, hbegin, hbb,
      hds, hTD, sdaeRecoverEvs, sdaeEndEvs, sdaeResumeEvs, hrec, hend,
      need_suspend_ops, PM_SUSPEND_FREEZE, PM_SUSPEND_MEM]
  have hlocked : enter_state_locked env PM_SUSPEND_MEM
      ({ st with lockHeld := true }) [Event.lockAcquire, Event.syncFS]
      = (some 0, { st with lockHeld := false },
        [Event.lockAcquire, Event.syncFS, Event.prepareConsole,
          Event.notifierPrepare, Event.freezeProcesses, Event.beginCb,
          Event.suspendConsole, Event.ftraceStop, Event.dpmSuspendStart,
          Event.recoverCb, Event.dpmResumeEnd, Event.ftraceStart,
          Event.resumeConsole, Event.endCb, Event.thawProcesses,
          Event.notifierPost, Event.restoreConsole, Event.lockRelease]) := by
    simp only [enter_state_locked, hprep]
    simp [hTF, hsdae, suspend_finish_evs]
  simp only [pm_suspend]
  rw [if_neg (by decide)]
  simp only [enter_state]
  rw [if_neg (by simp [hv]), if_neg (by simp [hl]), if_neg (by decide)]
  rw [hlocked]
  simp

theorem C3_test_devices_abort_witness :
    pm_suspend envTestDevices PM_SUSPEND_MEM st0
      = (some 0,
        { st0 with lockHeld := false, success := st0.success + 1 },
        [Event.asusOtgOff, Event.lockAcquire, Event.syncFS,
          Event.prepareConsole, Event.notifierPrepare, Event.freezeProcesses,
          Event.beginCb, Event.suspendConsole, Event.ftraceStop,
          Event.dpmSuspendStart, Event.recoverCb, Event.dpmResumeEnd,
          Event.ftraceStart, Event.resumeConsole, Event.endCb,
          Event.thawProcesses, Event.notifierPost, Event.restoreConsole,
          Event.lockRelease, Event.statsSuccess]) :=
  C3_test_devices_abort envTestDevices st0 opsFull (fun _ => true)
    (fun _ _ => 0) (fun _ => 0) rfl rfl rfl rfl rfl rfl rfl rfl rfl rfl rfl
    rfl rfl

end ClaimsC3

section ClaimsC5

/-- Claim C5: (1) the retry loop never re-runs steps 1-3 of the Device &
Platform phase — no begin-callback, console-suspend, trace-stop or
device-suspend event ever occurs inside the loop, for any environment;
(2) suspend_enter is re-invoked after an iteration exactly when that
iteration returned success with no spurious wake and the driver's
suspend_again capability exists and returns true — the invocation count
of a loop with fuel grows by one exactly under that condition;
(3) with the mock driver whose suspend_again returns true twice then
false, the full pm_suspend trace shows exactly three suspend_enter
invocations and exactly one device-suspend step. -/
theorem C5_retry_loop :
    (∀ (env : Env) (state : Int) (fuel k : Nat) (w : Bool) (st : St),
      ∀ e ∈ [Event.beginCb, Event.suspendConsole, Event.ftraceStop,
        Event.dpmSuspendStart],
        e ∉ (suspend_enter_loop env state fuel k w st).2.2.2) ∧
    (∀ (env : Env) (state : Int) (fuel k : Nat) (w : Bool) (st : St)
        (e : Int) (wk : Bool) (st1 : St) (evs1 : List Event),
      suspend_enter env state k w st = (some e, wk, st1, evs1) →
      ((e = 0 ∧ wk = false ∧ need_suspend_ops state = true
          ∧ sa_call env k = true) →
        ((suspend_enter_loop env state (fuel + 1) k w st).2.2.2).count
            Event.suspendEnterCall
          = 1 + ((suspend_enter_loop env state fuel (k + 1) wk st1).2.2.2).count
            Event.suspendEnterCall) ∧
      (¬(e = 0 ∧ wk = false ∧ need_suspend_ops state = true
          ∧ sa_call env k = true) →
        ((suspend_enter_loop env state (fuel + 1) k w st).2.2.2).count
          Event.suspendEnterCall = 1)) ∧
    (((pm_suspend envOk PM_SUSPEND_MEM st0).2.2).count Event.suspendEnterCall = 3 ∧
      ((pm_suspend envOk PM_SUSPEND_MEM st0).2.2).count Event.dpmSuspendStart = 1) := by
  refine ⟨?_, ?_, ?_, ?_⟩
  · intro env state fuel k w st e he
    apply suspend_enter_loop_no_outer
    fin_cases he <;> decide
  · intro env state fuel k w st e wk st1 evs1 h
    exact ⟨suspend_enter_loop_count_true env state fuel k w st e wk st1 evs1 h,
      suspend_enter_loop_count_false env state fuel k w st e wk st1 evs1 h⟩
  · decide
  · decide

theorem C5_retry_loop_witness :
    Event.dpmSuspendStart
        ∉ (suspend_enter_loop envOk PM_SUSPEND_MEM 10 0 false st0).2.2.2 ∧
    ((suspend_enter_loop envOk PM_SUSPEND_MEM (8 + 1) 0 false st0).2.2.2).count
        Event.suspendEnterCall
      = 1 + ((suspend_enter_loop envOk PM_SUSPEND_MEM 8 1 false st0).2.2.2).count
        Event.suspendEnterCall :=
  ⟨C5_retry_loop.1 envOk PM_SUSPEND_MEM 10 0 false st0 Event.dpmSuspendStart
    (by decide),
    (C5_retry_loop.2.1 envOk PM_SUSPEND_MEM 8 0 false st0 0 false st0
      [Event.suspendEnterCall, Event.prepareCb, Event.dpmSuspendEnd,
        Event.prepareLateCb, Event.disableNonboot, Event.archDisableIrqs,
        Event.syscoreSuspendEv, Event.wakeupCheck, Event.enterCb,
        Event.syscoreResumeEv, Event.archEnableIrqs, Event.enableNonboot,
        Event.wakeCb, Event.dpmResumeStart, Event.finishCb]
      (by decide)).1 (by decide)⟩

end ClaimsC5

section ClaimsC6

lemma sdae_devices_end_mem (env : Env) (state : Int) (st : St)
    (acc : List Event) (r : Int) (st' : St) (evs : List Event)
    (h : sdae_devices env state st acc = (some r, st', evs))
    (hend : Event.endCb ∈ sdaeEndEvs env state) : Event.endCb ∈ evs := by
  simp only [sdae_devices] at h
  split_ifs at h with h1 h2
  · simp only [Prod.mk.injEq] at h
    obtain ⟨-, -, h3⟩ := h
    subst h3
    exact List.mem_append.mpr (Or.inr hend)
  · simp only [Prod.mk.injEq] at h
    obtain ⟨-, -, h3⟩ := h
    subst h3
    exact List.mem_append.mpr (Or.inr hend)
  · rcases hl2 : suspend_enter_loop env state env.fuel 0 false st
      with ⟨ro, wk, st1, levs⟩
    rw [hl2] at h
    cases ro with
    | none => simp at h
    | some e =>
      simp only [Prod.mk.injEq, Option.some.injEq] at h
      obtain ⟨-, -, h3⟩ := h
      subst h3
      exact List.mem_append.mpr (Or.inr hend)

/-- Claim C6: in suspend_devices_and_enter (for a state that requires a
registered driver): (1) when the device-suspend step fails, the recover
capability (when present) is invoked and then devices are resumed,
tracing restarted and console resumed, in that order, and the call
returns exactly the device-suspend error; (2) when the begin callback
fails, that error is returned with only the end callback run afterwards;
(3) the end capability, when present, is invoked on every returning exit
path; (4) when device-suspend succeeds and no checkpoint aborts, the
value returned is the retry loop's result — so the result is always the
first error encountered, or success. -/
theorem C6_device_failure_unwind (env : Env) (state : Int) (st : St)
    (o : PlatformSuspendOps)
    (hn : need_suspend_ops state = true)
    (hops : env.suspend_ops = some o) :
    ((o.begin_ = none ∨ ∃ f, o.begin_ = some f ∧ f state = 0) →
      env.dpm_suspend_start ≠ 0 →
      suspend_devices_and_enter env state st
        = (some env.dpm_suspend_start, st,
          sdaeBeginEvs env state
            ++ [Event.suspendConsole, Event.ftraceStop, Event.dpmSuspendStart]
            ++ sdaeRecoverEvs env state ++ sdaeResumeEvs
            ++ sdaeEndEvs env state)) ∧
    (∀ f, o.begin_ = some f → f state ≠ 0 →
      suspend_devices_and_enter env state st
        = (some (f state), st, [Event.beginCb] ++ sdaeEndEvs env state)) ∧
    (o.end_ = true → ∀ (r : Int) (st' : St) (evs : List Event),
      suspend_devices_and_enter env state st = (some r, st', evs) →
      Event.endCb ∈ evs) ∧
    (env.dpm_suspend_start = 0 → suspend_test env TEST_DEVICES = false →
      (o.begin_ = none ∨ ∃ f, o.begin_ = some f ∧ f state = 0) →
      ∀ (e : Int) (wk : Bool) (st1 : St) (levs : List Event),
        suspend_enter_loop env state env.fuel 0 false st
          = (some e, wk, st1, levs) →
        (suspend_devices_and_enter env state st).1 = some e) := by
  have hopsOf : opsOf env = o := by
    simp [opsOf, hops]
  have hgate : ¬(need_suspend_ops state = true ∧ env.suspend_ops.isNone = true) := by
    simp [hops]
  refine ⟨?_, ?_, ?_, ?_⟩
  · intro hbeginok hdpm
    rcases hbeginok with hbeg | ⟨f, hbeg, hf0⟩
    · have hbe : sdaeBeginEvs env state = [] := by
        simp [sdaeBeginEvs, hn, hopsOf, hbeg]
      simp [suspend_devices_and_enter, sdae_devices, hops, hgate, hn, hopsOf,
        hbeg, hdpm, hbe]
    · have hbe : sdaeBeginEvs env state = [Event.beginCb] := by
        simp [sdaeBeginEvs, hn, hopsOf, hbeg]
      simp [suspend_devices_and_enter, sdae_devices, hops, hgate, hn, hopsOf,
        hbeg, hf0, hdpm, hbe]
  · intro f hbeg hf
    simp [suspend_devices_and_enter, hops, hgate, hn, hopsOf, hbeg, hf]
  · intro hendt r st' evs hret
    have hend2 : Event.endCb ∈ sdaeEndEvs env state := by
      simp [sdaeEndEvs, hn, hopsOf, hendt]
    simp only [suspend_devices_and_enter] at hret
    rw [if_neg hgate, if_pos hn, hopsOf] at hret
    rcases hbegv : o.begin_ with _ | f
    · rw [hbegv] at hret
      exact sdae_devices_end_mem env state st [] r st' evs hret hend2
    · rw [hbegv] at hret
      by_cases hfz : f state ≠ 0
      · simp [hfz] at hret
        obtain ⟨-, -, h3⟩ := hret
        subst h3
        simp [hend2]
      · simp [hfz] at hret
        exact sdae_devices_end_mem env state st [Event.beginCb] r st' evs
          hret hend2
  · intro hdpm0 htd hbeginok e wk st1 levs hloop
    rcases hbeginok with hbeg | ⟨f, hbeg, hf0⟩
    · simp [suspend_devices_and_enter, sdae_devices, hops, hgate, hn, hopsOf,
        hbeg, hdpm0, htd, hloop]
    · simp [suspend_devices_and_enter, sdae_devices, hops, hgate, hn, hopsOf,
        hbeg, hf0, hdpm0, htd, hloop]

theorem C6_device_failure_unwind_witness :
    suspend_devices_and_enter envDpmFail PM_SUSPEND_MEM st0
      = (some (-19), st0,
        sdaeBeginEvs envDpmFail PM_SUSPEND_MEM
          ++ [Event.suspendConsole, Event.ftraceStop, Event.dpmSuspendStart]
          ++ sdaeRecoverEvs envDpmFail PM_SUSPEND_MEM ++ sdaeResumeEvs
          ++ sdaeEndEvs envDpmFail PM_SUSPEND_MEM) :=
  (C6_device_failure_unwind envDpmFail PM_SUSPEND_MEM st0 opsFull
    (by decide) rfl).1 (Or.inr ⟨fun _ => 0, rfl, rfl⟩) (by decide)

end ClaimsC6

end Suspend
